import Mathlib

/-!
Verification of the Letter language front-end: a shallow embedding of the
tokenizer (src/tokenizer/tokenizer.go), the recursive-descent parser
(src/parser/parser.go) and the AST node model with its ToString rendering
(the ast package), together with theorems settling the specified
properties of the front-end.
-/

namespace Letter

/-- Token categories, mirroring the TokenType constants of tokenizer.go
(the iota block LPAREN .. ERROR, in source order). -/
inductive TokenType where
  | LPAREN
  | RPAREN
  | LBRACE
  | RBRACE
  | LBRACKET
  | RBRACKET
  | COMMA
  | SEMICOLON
  | DOT
  | LET
  | IF
  | ELSE
  | TRUE
  | FALSE
  | NULL
  | DEF
  | RETURN
  | WHILE
  | DO
  | FOR
  | CLASS
  | THIS
  | EXTENDS
  | SUPER
  | NEW
  | NUMBER
  | STRING
  | IDENTIFIER
  | SIMPLE_ASSIGN
  | COMPLEX_ASSIGN
  | RELATIONAL_OPERATOR
  | EQUALITY_OPERATOR
  | ADDITIVE_OPERATOR
  | MULTIPLICATIVE_OPERATOR
  | LOGICAL_AND
  | LOGICAL_OR
  | LOGICAL_NOT
  | IGNORE
  | EOF
  | ERROR
  deriving DecidableEq, Repr

/-- The TokenNames array of tokenizer.go.  The Go array has 40 entries
while ERROR is the 41st constant, so indexing TokenNames with ERROR is out
of range; that case is modelled as none. -/
def TokenNames : TokenType → Option String
  | .LPAREN => some "LPAREN"
  | .RPAREN => some "RPAREN"
  | .LBRACE => some "LBRACE"
  | .RBRACE => some "RBRACE"
  | .LBRACKET => some "LBRACKET"
  | .RBRACKET => some "RBRACKET"
  | .COMMA => some "COMMA"
  | .SEMICOLON => some "SEMICOLON"
  | .DOT => some "DOT"
  | .LET => some "LET"
  | .IF => some "IF"
  | .ELSE => some "ELSE"
  | .TRUE => some "TRUE"
  | .FALSE => some "FALSE"
  | .NULL => some "NULL"
  | .DEF => some "DEF"
  | .RETURN => some "RETURN"
  | .WHILE => some "WHILE"
  | .DO => some "DO"
  | .FOR => some "FOR"
  | .CLASS => some "CLASS"
  | .THIS => some "THIS"
  | .EXTENDS => some "EXTENDS"
  | .SUPER => some "SUPER"
  | .NEW => some "NEW"
  | .NUMBER => some "NUMBER"
  | .STRING => some "STRING"
  | .IDENTIFIER => some "IDENTIFIER"
  | .SIMPLE_ASSIGN => some "SIMPLE_ASSIGN"
  | .COMPLEX_ASSIGN => some "COMPLEX_ASSIGN"
  | .RELATIONAL_OPERATOR => some "RELATIONAL_OPERATOR"
  | .EQUALITY_OPERATOR => some "EQUALITY_OPERATOR"
  | .ADDITIVE_OPERATOR => some "ADDITIVE_OPERATOR"
  | .MULTIPLICATIVE_OPERATOR => some "MULTIPLICATIVE_OPERATOR"
  | .LOGICAL_AND => some "LOGICAL_AND"
  | .LOGICAL_OR => some "LOGICAL_OR"
  | .LOGICAL_NOT => some "LOGICAL_NOT"
  | .IGNORE => some "IGNORE"
  | .EOF => some "EOF"
  | .ERROR => none

/-- A token: the pair (Type, Value) of tokenizer.go. -/
structure Token where
  type : TokenType
  value : String
  deriving DecidableEq, Repr

/-- The single-quote character, written by code point to keep the source
free of quote escapes. -/
def squote : Char := Char.ofNat 39

/-- Go regexp class \s (RE2 Perl class): tab, newline, form feed,
carriage return and space. -/
def isSpaceChar (c : Char) : Bool :=
  c = ' ' ∨ c = Char.ofNat 9 ∨ c = Char.ofNat 10 ∨ c = Char.ofNat 12 ∨ c = Char.ofNat 13

/-- Go regexp class \w: ASCII letters, digits and underscore. -/
def isWordChar (c : Char) : Bool :=
  (Char.ofNat 97 ≤ c ∧ c ≤ Char.ofNat 122) ∨
  (Char.ofNat 65 ≤ c ∧ c ≤ Char.ofNat 90) ∨
  (Char.ofNat 48 ≤ c ∧ c ≤ Char.ofNat 57) ∨ c = '_'

/-- Go regexp class \d: ASCII digits. -/
def isDigitChar (c : Char) : Bool :=
  Char.ofNat 48 ≤ c ∧ c ≤ Char.ofNat 57

/-- Whether the pattern characters are a prefix of the input. -/
def leadsWith : List Char → List Char → Bool
  | [], _ => true
  | _ :: _, [] => false
  | c :: cs, d :: ds => c = d && leadsWith cs ds

/-- A lexical-rule matcher: given the unconsumed remainder it yields the
length of the (necessarily leading) match, or none.  Each matcher below
models one regular expression of the Spec table of tokenizer.go. -/
abbrev TMatcher := List Char → Option Nat

/-- Matcher for the whitespace rule, regex: caret then backslash-s-plus. -/
def matchSpaces : TMatcher := fun input =>
  match (input.takeWhile isSpaceChar).length with
  | 0 => none
  | n + 1 => some (n + 1)

/-- Whether a character differs from the given one (the negated
single-character class of a regex). -/
def notChar (q c : Char) : Bool := ¬ c = q

/-- Matcher for single-line comments, regex: two slashes then dot-star
(dot excludes the newline). -/
def matchLineComment : TMatcher := fun input =>
  if leadsWith ['/', '/'] input then
    some (2 + ((input.drop 2).takeWhile (notChar (Char.ofNat 10))).length)
  else none

/-- Position of the first slash of the earliest star-slash pair, counted
from the end of the opening delimiter; models the lazy body of the block
comment regex. -/
def blockEnd : List Char → Option Nat
  | [] => none
  | '*' :: '/' :: _ => some 2
  | _ :: rest => (blockEnd rest).map (· + 1)

/-- Matcher for block comments, regex: slash-star, lazy any-char-star,
star-slash. -/
def matchBlockComment : TMatcher := fun input =>
  if leadsWith ['/', '*'] input then (blockEnd (input.drop 2)).map (2 + ·)
  else none

/-- Matcher for a literal delimiter or operator spelling. -/
def matchLit (lit : List Char) : TMatcher := fun input =>
  if leadsWith lit input then some lit.length else none

/-- Matcher for the relational-operator rule, regex: one of < > followed
by an optional =. -/
def matchRelational : TMatcher := fun input =>
  match input with
  | c :: rest =>
    if c = '<' ∨ c = '>' then
      if leadsWith ['='] rest then some 2 else some 1
    else none
  | [] => none

/-- Matcher for the equality-operator rule, regex: one of ! = followed by
a mandatory =. -/
def matchEquality : TMatcher := fun input =>
  match input with
  | c1 :: rest =>
    if c1 = '!' ∨ c1 = '=' then
      if leadsWith ['='] rest then some 2 else none
    else none
  | [] => none

/-- Matcher for the compound-assignment rule, regex: one of + - * /
followed by a mandatory =. -/
def matchComplexAssign : TMatcher := fun input =>
  match input with
  | c1 :: rest =>
    if c1 = '+' ∨ c1 = '-' ∨ c1 = '*' ∨ c1 = '/' then
      if leadsWith ['='] rest then some 2 else none
    else none
  | [] => none

/-- Matcher for a one-character class rule (additive or multiplicative
operators). -/
def matchOneOf (cs : List Char) : TMatcher := fun input =>
  match input with
  | c :: _ => if cs.contains c then some 1 else none
  | [] => none

/-- Matcher for a word-boundary anchored keyword rule.  The leading
boundary always holds when the input starts with the (letter-initial)
keyword; the trailing boundary requires the next character, if any, to be
a non-word character. -/
def matchKeyword (kw : List Char) : TMatcher := fun input =>
  if leadsWith kw input then
    match input.drop kw.length with
    | [] => some kw.length
    | c :: _ => if isWordChar c then none else some kw.length
  else none

/-- Matcher for the numeric-literal rule, regex: digit-plus. -/
def matchDigits : TMatcher := fun input =>
  match (input.takeWhile isDigitChar).length with
  | 0 => none
  | n + 1 => some (n + 1)

/-- Matcher for a quoted string rule: the quote, a run of non-quote
characters, and a mandatory closing quote. -/
def matchQuoted (q : Char) : TMatcher := fun input =>
  match input with
  | c :: rest =>
    if c = q then
      match rest.drop ((rest.takeWhile (notChar q)).length) with
      | d :: _ => if d = q then some ((rest.takeWhile (notChar q)).length + 2) else none
      | [] => none
    else none
  | [] => none

/-- Matcher for the identifier rule, regex: word-char-plus. -/
def matchWordRun : TMatcher := fun input =>
  match (input.takeWhile isWordChar).length with
  | 0 => none
  | n + 1 => some (n + 1)

/-- The Spec table of tokenizer.go: the 41 lexical rules in their exact
source order, each pairing a matcher with its token category. -/
def spec : List (TMatcher × TokenType) :=
  [ (matchSpaces, .IGNORE),
    (matchLineComment, .IGNORE),
    (matchBlockComment, .IGNORE),
    (matchLit ['{'], .LBRACE),
    (matchLit ['}'], .RBRACE),
    (matchLit ['('], .LPAREN),
    (matchLit [')'], .RPAREN),
    (matchLit ['['], .LBRACKET),
    (matchLit [']'], .RBRACKET),
    (matchLit [','], .COMMA),
    (matchLit [';'], .SEMICOLON),
    (matchLit ['.'], .DOT),
    (matchRelational, .RELATIONAL_OPERATOR),
    (matchEquality, .EQUALITY_OPERATOR),
    (matchLit ['&', '&'], .LOGICAL_AND),
    (matchLit ['|', '|'], .LOGICAL_OR),
    (matchLit ['!'], .LOGICAL_NOT),
    (matchLit ['='], .SIMPLE_ASSIGN),
    (matchComplexAssign, .COMPLEX_ASSIGN),
    (matchOneOf ['+', '-'], .ADDITIVE_OPERATOR),
    (matchOneOf ['*', '/'], .MULTIPLICATIVE_OPERATOR),
    (matchKeyword ['l', 'e', 't'], .LET),
    (matchKeyword ['i', 'f'], .IF),
    (matchKeyword ['e', 'l', 's', 'e'], .ELSE),
    (matchKeyword ['t', 'r', 'u', 'e'], .TRUE),
    (matchKeyword ['f', 'a', 'l', 's', 'e'], .FALSE),
    (matchKeyword ['n', 'u', 'l', 'l'], .NULL),
    (matchKeyword ['d', 'e', 'f'], .DEF),
    (matchKeyword ['r', 'e', 't', 'u', 'r', 'n'], .RETURN),
    (matchKeyword ['c', 'l', 'a', 's', 's'], .CLASS),
    (matchKeyword ['t', 'h', 'i', 's'], .THIS),
    (matchKeyword ['e', 'x', 't', 'e', 'n', 'd', 's'], .EXTENDS),
    (matchKeyword ['s', 'u', 'p', 'e', 'r'], .SUPER),
    (matchKeyword ['n', 'e', 'w'], .NEW),
    (matchKeyword ['w', 'h', 'i', 'l', 'e'], .WHILE),
    (matchKeyword ['d', 'o'], .DO),
    (matchKeyword ['f', 'o', 'r'], .FOR),
    (matchDigits, .NUMBER),
    (matchQuoted '"', .STRING),
    (matchQuoted squote, .STRING),
    (matchWordRun, .IDENTIFIER) ]

/-- The rule-scanning loop of GetNextToken: try the rules in order and
return the category and (positive) length of the first non-empty match.
A rule matching nothing, modelled by none or a zero length, is skipped,
exactly as the Go loop continues on an empty match. -/
def findRule : List (TMatcher × TokenType) → List Char → Option (TokenType × Nat)
  | [], _ => none
  | (m, ty) :: rules, input =>
    match m input with
    | some (n + 1) => some (ty, n + 1)
    | _ => findRule rules input

/-- GetNextToken of tokenizer.go on the unconsumed remainder of the
input, with fuel making the self-call on insignificant matches (which
always consume at least one character) structurally decreasing.  Returns
the token and the new remainder.  With fuel exceeding the input length
the fuel-exhaustion branch is unreachable. -/
def getNextTokenF : Nat → List Char → Token × List Char
  | 0, input => (⟨.ERROR, ""⟩, input)
  | fuel + 1, input =>
    if input.isEmpty then (⟨.EOF, ""⟩, input)
    else
      match findRule spec input with
      | some (ty, n) =>
        if ty = .IGNORE then getNextTokenF fuel (input.drop n)
        else (⟨ty, String.mk (input.take n)⟩, input.drop n)
      | none => (⟨.ERROR, ""⟩, input)

/-- GetNextToken with always-sufficient fuel. -/
def getNextToken (input : List Char) : Token × List Char :=
  getNextTokenF (input.length + 1) input

/-- The token stream: the sequence of GetNextToken results, ending with
the first end-of-input or lexical-error token.  Each earlier token
consumes at least one character, so the fuel is sufficient. -/
def tokenizeF : Nat → List Char → List Token
  | 0, _ => []
  | fuel + 1, input =>
    match getNextToken input with
    | (tok, rest) =>
      if tok.type = .EOF ∨ tok.type = .ERROR then [tok]
      else tok :: tokenizeF fuel rest

/-- The token stream of a source string. -/
def tokenize (s : String) : List Token :=
  tokenizeF (s.length + 1) s.data

/-- The AST expression node model of the ast package: one constructor
per expression variant. -/
inductive Expr where
  | numericLiteral (value : Int)
  | stringLiteral (value : String)
  | booleanLiteral (value : Bool)
  | nullLiteral
  | identifier (name : String)
  | thisExpression
  | superExpression
  | assignment (operator : String) (left right : Expr)
  | logical (operator : String) (left right : Expr)
  | binary (operator : String) (left right : Expr)
  | unaryExpression (operator : String) (right : Expr)
  | member (computed : Bool) (object property : Expr)
  | call (callee : Expr) (arguments : List Expr)
  | newExpression (callee : Expr) (arguments : List Expr)
  deriving Repr

/-- A statement node: the only statement variant is ExpressionStatement. -/
inductive Stmt where
  | expressionStatement (expression : Expr)
  deriving Repr

/-- A Program node: the ordered statements of the parse root. -/
structure Program where
  statements : List Stmt
  deriving Repr

/-- Decimal digits of a natural number, most significant first; fuel is
the number itself, which bounds the digit count. -/
def natDecimalAux : Nat → Nat → List Char
  | 0, _ => []
  | fuel + 1, n =>
    if n = 0 then []
    else natDecimalAux fuel (n / 10) ++ [Char.ofNat (48 + n % 10)]

/-- Decimal rendering of a natural number. -/
def natDecimal (n : Nat) : List Char :=
  if n = 0 then ['0'] else natDecimalAux n n

/-- Rendering of an int64 with the Go verb %v: optional minus sign then
decimal digits. -/
def intToText (v : Int) : String :=
  if v < 0 then String.mk ('-' :: natDecimal v.natAbs) else String.mk (natDecimal v.natAbs)

mutual

/-- The ToString method of each expression node, exactly as the ast
package formats it: parenthesised binary, logical and unary forms,
spaced assignments, dotted and bracketed member access, and
comma-space-joined argument lists. -/
def Expr.toText : Expr → String
  | .numericLiteral v => intToText v
  | .stringLiteral v => v
  | .booleanLiteral b => if b then "true" else "false"
  | .nullLiteral => "null"
  | .identifier name => name
  | .thisExpression => "this"
  | .superExpression => "super"
  | .assignment op l r => Expr.toText l ++ " " ++ op ++ " " ++ Expr.toText r
  | .logical op l r => "(" ++ Expr.toText l ++ op ++ Expr.toText r ++ ")"
  | .binary op l r => "(" ++ Expr.toText l ++ op ++ Expr.toText r ++ ")"
  | .unaryExpression op r => "(" ++ op ++ Expr.toText r ++ ")"
  | .member true obj prop => Expr.toText obj ++ "[" ++ Expr.toText prop ++ "]"
  | .member false obj prop => Expr.toText obj ++ "." ++ Expr.toText prop
  | .call callee args => Expr.toText callee ++ "(" ++ argsToText args ++ ")"
  | .newExpression callee args => "new " ++ Expr.toText callee ++ "(" ++ argsToText args ++ ")"

/-- The strings.Join of rendered arguments with the separator comma
space. -/
def argsToText : List Expr → String
  | [] => ""
  | [e] => Expr.toText e
  | e :: rest => Expr.toText e ++ ", " ++ argsToText rest

end

/-- The ToString method of ExpressionStatement. -/
def Stmt.toText : Stmt → String
  | .expressionStatement e => Expr.toText e

/-- The ToString method of Program: concatenation of the statements'
renderings with no separator. -/
def Program.toText (p : Program) : String :=
  (p.statements.map Stmt.toText).foldl (· ++ ·) ""

/-- Whether a character is an ASCII octal digit. -/
def isOctalDigit (c : Char) : Bool :=
  Char.ofNat 48 ≤ c ∧ c ≤ Char.ofNat 55

/-- Numeric value of a digit list in the given base. -/
def digitsVal (base : Nat) (s : List Char) : Nat :=
  s.foldl (fun acc c => base * acc + (c.toNat - 48)) 0

/-- The int64 maximum, the bound enforced by the bit size argument of
strconv.ParseInt. -/
def maxInt64 : Nat := 2 ^ 63 - 1

/-- strconv.ParseInt(s, 0, 64) restricted to the decimal-digit-run
values produced by the NUMBER rule: a lone zero parses as zero, a
leading zero switches to octal (rejecting the digits 8 and 9), any other
digit run parses as decimal, and values exceeding the int64 maximum are
range errors.  Non-digit inputs, unreachable from NUMBER tokens, are
rejected. -/
def parseIntBase0 (s : List Char) : Option Int :=
  match s with
  | [] => none
  | ['0'] => some 0
  | '0' :: rest =>
    if rest.all isOctalDigit ∧ rest ≠ [] then
      if digitsVal 8 rest ≤ maxInt64 then some (digitsVal 8 rest) else none
    else none
  | _ =>
    if s.all isDigitChar then
      if digitsVal 10 s ≤ maxInt64 then some (digitsVal 10 s) else none
    else none

/-- The failure modes of the parser: the panic sites of parser.go plus
the fuel-exhaustion sentinel of this embedding (unreachable when the
fuel exceeds the work the source can demand). -/
inductive ParseError where
  | unexpectedEndOfInput (expected : TokenType)
  | unexpectedToken (found expected : TokenType)
  | unexpectedPrimary
  | unexpectedLiteral
  | numericConversion
  | outOfFuel
  deriving DecidableEq, Repr

/-- The panic message of each parser failure, as formatted by parser.go
(the strconv error message is abbreviated; an out-of-range TokenNames
index would itself panic in Go and is rendered as a marker). -/
def ParseError.message : ParseError → String
  | .unexpectedEndOfInput expected =>
    "Unexpected end of input, expected: " ++ (TokenNames expected).getD "index out of range"
  | .unexpectedToken found expected =>
    "Unexpected token: " ++ (TokenNames found).getD "index out of range" ++
      ", expected: " ++ (TokenNames expected).getD "index out of range"
  | .unexpectedPrimary => "Unexpected primary expression."
  | .unexpectedLiteral => "Literal: unexpected literal production."
  | .numericConversion => "strconv.ParseInt: parse error"
  | .outOfFuel => "out of fuel"

/-- Whether a parser failure's message names the given category as the
expected one (the panics of eat carry an expected category; the primary
and literal panics name none). -/
def ParseError.namesExpected : ParseError → TokenType → Bool
  | .unexpectedEndOfInput expected, ty => expected = ty
  | .unexpectedToken _ expected, ty => expected = ty
  | _, _ => false

/-- The parser state: the one-token lookahead slot and the unconsumed
remainder of the source held by the tokenizer. -/
structure PState where
  lookAhead : Token
  input : List Char
  deriving Repr

/-- The eat method of parser.go: return the lookahead if its category
matches, pulling the next token into the lookahead slot; fail on
end-of-input or a category mismatch. -/
def eatE (tokenType : TokenType) (s : PState) : Except ParseError (Token × PState) :=
  let token := s.lookAhead
  if token.type = .EOF then .error (.unexpectedEndOfInput tokenType)
  else if token.type ≠ tokenType then .error (.unexpectedToken token.type tokenType)
  else
    match getNextToken s.input with
    | (newToken, rest) => .ok (token, ⟨newToken, rest⟩)

/-- isAssignmentOperator of parser.go. -/
def isAssignmentOp (operator : TokenType) : Bool :=
  operator = .SIMPLE_ASSIGN ∨ operator = .COMPLEX_ASSIGN

/-- isLiteral of parser.go. -/
def isLiteralType (tokenType : TokenType) : Bool :=
  tokenType = .NUMBER ∨ tokenType = .STRING ∨ tokenType = .TRUE ∨
    tokenType = .FALSE ∨ tokenType = .NULL

/-- identifier of parser.go: eat an IDENTIFIER and build the node. -/
def identifierE (s : PState) : Except ParseError (Expr × PState) := do
  let (tok, s) ← eatE .IDENTIFIER s
  .ok (.identifier tok.value, s)

/-- assignmentOperator of parser.go. -/
def assignmentOperatorE (s : PState) : Except ParseError (Token × PState) :=
  if s.lookAhead.type = .SIMPLE_ASSIGN then eatE .SIMPLE_ASSIGN s
  else eatE .COMPLEX_ASSIGN s

/-- literal of parser.go: dispatch on the lookahead's literal category.
The NUMBER case converts with strconv.ParseInt base zero and panics on a
conversion error; the STRING case stores the token value unchanged. -/
def literalE (s : PState) : Except ParseError (Expr × PState) :=
  match s.lookAhead.type with
  | .NUMBER => do
    let (tok, s) ← eatE .NUMBER s
    match parseIntBase0 tok.value.data with
    | some v => .ok (.numericLiteral v, s)
    | none => .error .numericConversion
  | .STRING => do
    let (tok, s) ← eatE .STRING s
    .ok (.stringLiteral tok.value, s)
  | .TRUE => do
    let (_, s) ← eatE .TRUE s
    .ok (.booleanLiteral true, s)
  | .FALSE => do
    let (_, s) ← eatE .FALSE s
    .ok (.booleanLiteral false, s)
  | .NULL => do
    let (_, s) ← eatE .NULL s
    .ok (.nullLiteral, s)
  | _ => .error .unexpectedLiteral

/-- superExpr of parser.go: eat the keyword and build the node. -/
def superE (s : PState) : Except ParseError (Expr × PState) := do
  let (_, s) ← eatE .SUPER s
  .ok (.superExpression, s)

mutual

/-- program of parser.go: a statement list up to end of input. -/
def programF : Nat → PState → Except ParseError Program
  | 0, _ => .error .outOfFuel
  | fuel + 1, s => do
    let (sts, _) ← statementListF fuel .EOF s
    .ok ⟨sts⟩

/-- statementList of parser.go: statements until the stop category shows
in the lookahead. -/
def statementListF : Nat → TokenType → PState → Except ParseError (List Stmt × PState)
  | 0, _, _ => .error .outOfFuel
  | fuel + 1, stop, s =>
    if s.lookAhead.type = stop then .ok ([], s)
    else do
      let (st, s) ← statementF fuel s
      let (sts, s) ← statementListF fuel stop s
      .ok (st :: sts, s)

/-- statement of parser.go. -/
def statementF : Nat → PState → Except ParseError (Stmt × PState)
  | 0, _ => .error .outOfFuel
  | fuel + 1, s => do
    let (e, s) ← expressionF fuel s
    .ok (.expressionStatement e, s)

/-- expression of parser.go. -/
def expressionF : Nat → PState → Except ParseError (Expr × PState)
  | 0, _ => .error .outOfFuel
  | fuel + 1, s => assignmentExpressionF fuel s

/-- assignmentExpression of parser.go: a logical-or expression, then a
right-recursive assignment tail when the lookahead is an assignment
operator. -/
def assignmentExpressionF : Nat → PState → Except ParseError (Expr × PState)
  | 0, _ => .error .outOfFuel
  | fuel + 1, s => do
    let (left, s) ← logicalOrExpressionF fuel s
    if isAssignmentOp s.lookAhead.type then do
      let (opTok, s) ← assignmentOperatorE s
      let (right, s) ← assignmentExpressionF fuel s
      .ok (.assignment opTok.value left right, s)
    else .ok (left, s)

/-- logicalOrExpression of parser.go. -/
def logicalOrExpressionF : Nat → PState → Except ParseError (Expr × PState)
  | 0, _ => .error .outOfFuel
  | fuel + 1, s => do
    let (left, s) ← logicalAndExpressionF fuel s
    orLoopF fuel left s

/-- The left-folding loop of logicalOrExpression. -/
def orLoopF : Nat → Expr → PState → Except ParseError (Expr × PState)
  | 0, _, _ => .error .outOfFuel
  | fuel + 1, left, s =>
    if s.lookAhead.type = .LOGICAL_OR then do
      let (opTok, s) ← eatE .LOGICAL_OR s
      let (right, s) ← logicalAndExpressionF fuel s
      orLoopF fuel (.logical opTok.value left right) s
    else .ok (left, s)

/-- logicalAndExpression of parser.go. -/
def logicalAndExpressionF : Nat → PState → Except ParseError (Expr × PState)
  | 0, _ => .error .outOfFuel
  | fuel + 1, s => do
    let (left, s) ← equalityF fuel s
    andLoopF fuel left s

/-- The left-folding loop of logicalAndExpression. -/
def andLoopF : Nat → Expr → PState → Except ParseError (Expr × PState)
  | 0, _, _ => .error .outOfFuel
  | fuel + 1, left, s =>
    if s.lookAhead.type = .LOGICAL_AND then do
      let (opTok, s) ← eatE .LOGICAL_AND s
      let (right, s) ← equalityF fuel s
      andLoopF fuel (.logical opTok.value left right) s
    else .ok (left, s)

/-- equality of parser.go: comparisons folded into LogicalExpression
nodes. -/
def equalityF : Nat → PState → Except ParseError (Expr × PState)
  | 0, _ => .error .outOfFuel
  | fuel + 1, s => do
    let (left, s) ← comparisonF fuel s
    equalityLoopF fuel left s

/-- The left-folding loop of equality. -/
def equalityLoopF : Nat → Expr → PState → Except ParseError (Expr × PState)
  | 0, _, _ => .error .outOfFuel
  | fuel + 1, left, s =>
    if s.lookAhead.type = .EQUALITY_OPERATOR then do
      let (opTok, s) ← eatE .EQUALITY_OPERATOR s
      let (right, s) ← comparisonF fuel s
      equalityLoopF fuel (.logical opTok.value left right) s
    else .ok (left, s)

/-- comparison of parser.go: terms folded into BinaryExpression nodes. -/
def comparisonF : Nat → PState → Except ParseError (Expr × PState)
  | 0, _ => .error .outOfFuel
  | fuel + 1, s => do
    let (left, s) ← termF fuel s
    comparisonLoopF fuel left s

/-- The left-folding loop of comparison. -/
def comparisonLoopF : Nat → Expr → PState → Except ParseError (Expr × PState)
  | 0, _, _ => .error .outOfFuel
  | fuel + 1, left, s =>
    if s.lookAhead.type = .RELATIONAL_OPERATOR then do
      let (opTok, s) ← eatE .RELATIONAL_OPERATOR s
      let (right, s) ← termF fuel s
      comparisonLoopF fuel (.binary opTok.value left right) s
    else .ok (left, s)

/-- term of parser.go: factors folded over additive operators. -/
def termF : Nat → PState → Except ParseError (Expr × PState)
  | 0, _ => .error .outOfFuel
  | fuel + 1, s => do
    let (left, s) ← factorF fuel s
    termLoopF fuel left s

/-- The left-folding loop of term. -/
def termLoopF : Nat → Expr → PState → Except ParseError (Expr × PState)
  | 0, _, _ => .error .outOfFuel
  | fuel + 1, left, s =>
    if s.lookAhead.type = .ADDITIVE_OPERATOR then do
      let (opTok, s) ← eatE .ADDITIVE_OPERATOR s
      let (right, s) ← factorF fuel s
      termLoopF fuel (.binary opTok.value left right) s
    else .ok (left, s)

/-- factor of parser.go: unaries folded over multiplicative operators. -/
def factorF : Nat → PState → Except ParseError (Expr × PState)
  | 0, _ => .error .outOfFuel
  | fuel + 1, s => do
    let (left, s) ← unaryF fuel s
    factorLoopF fuel left s

/-- The left-folding loop of factor. -/
def factorLoopF : Nat → Expr → PState → Except ParseError (Expr × PState)
  | 0, _, _ => .error .outOfFuel
  | fuel + 1, left, s =>
    if s.lookAhead.type = .MULTIPLICATIVE_OPERATOR then do
      let (opTok, s) ← eatE .MULTIPLICATIVE_OPERATOR s
      let (right, s) ← unaryF fuel s
      factorLoopF fuel (.binary opTok.value left right) s
    else .ok (left, s)

/-- unary of parser.go: a right-recursive prefix chain on additive or
logical-not operators, otherwise the left-hand-side chain. -/
def unaryF : Nat → PState → Except ParseError (Expr × PState)
  | 0, _ => .error .outOfFuel
  | fuel + 1, s =>
    match s.lookAhead.type with
    | .ADDITIVE_OPERATOR => do
      let (opTok, s) ← eatE .ADDITIVE_OPERATOR s
      let (right, s) ← unaryF fuel s
      .ok (.unaryExpression opTok.value right, s)
    | .LOGICAL_NOT => do
      let (opTok, s) ← eatE .LOGICAL_NOT s
      let (right, s) ← unaryF fuel s
      .ok (.unaryExpression opTok.value right, s)
    | _ => leftHandSideExpF fuel s

/-- leftHandSideExp of parser.go. -/
def leftHandSideExpF : Nat → PState → Except ParseError (Expr × PState)
  | 0, _ => .error .outOfFuel
  | fuel + 1, s => callMemberExpF fuel s

/-- callMemberExp of parser.go: a super call, or a member expression
optionally continued as a call. -/
def callMemberExpF : Nat → PState → Except ParseError (Expr × PState)
  | 0, _ => .error .outOfFuel
  | fuel + 1, s =>
    if s.lookAhead.type = .SUPER then do
      let (sup, s) ← superE s
      callExpressionF fuel sup s
    else do
      let (memberPart, s) ← memberExpF fuel s
      if s.lookAhead.type = .LPAREN then callExpressionF fuel memberPart s
      else .ok (memberPart, s)

/-- memberExp of parser.go: a primary followed by a left-folding chain of
dot and bracket accesses. -/
def memberExpF : Nat → PState → Except ParseError (Expr × PState)
  | 0, _ => .error .outOfFuel
  | fuel + 1, s => do
    let (object, s) ← primaryF fuel s
    memberLoopF fuel object s

/-- The member-chain loop of memberExp. -/
def memberLoopF : Nat → Expr → PState → Except ParseError (Expr × PState)
  | 0, _, _ => .error .outOfFuel
  | fuel + 1, object, s =>
    if s.lookAhead.type = .DOT then do
      let (_, s) ← eatE .DOT s
      let (property, s) ← identifierE s
      memberLoopF fuel (.member false object property) s
    else if s.lookAhead.type = .LBRACKET then do
      let (_, s) ← eatE .LBRACKET s
      let (property, s) ← expressionF fuel s
      let (_, s) ← eatE .RBRACKET s
      memberLoopF fuel (.member true object property) s
    else .ok (object, s)

/-- callExpression of parser.go: an argument list applied to the callee,
recursing while further argument lists follow. -/
def callExpressionF : Nat → Expr → PState → Except ParseError (Expr × PState)
  | 0, _, _ => .error .outOfFuel
  | fuel + 1, callee, s => do
    let (args, s) ← argumentsF fuel s
    if s.lookAhead.type = .LPAREN then callExpressionF fuel (.call callee args) s
    else .ok (.call callee args, s)

/-- arguments of parser.go: a parenthesised, possibly empty argument
list. -/
def argumentsF : Nat → PState → Except ParseError (List Expr × PState)
  | 0, _ => .error .outOfFuel
  | fuel + 1, s => do
    let (_, s) ← eatE .LPAREN s
    let (args, s) ←
      if s.lookAhead.type ≠ .RPAREN then argumentListF fuel s
      else pure ([], s)
    let (_, s) ← eatE .RPAREN s
    .ok (args, s)

/-- argumentList of parser.go: assignment expressions separated by
commas. -/
def argumentListF : Nat → PState → Except ParseError (List Expr × PState)
  | 0, _ => .error .outOfFuel
  | fuel + 1, s => do
    let (first, s) ← assignmentExpressionF fuel s
    let (rest, s) ← argListLoopF fuel s
    .ok (first :: rest, s)

/-- The comma loop of argumentList. -/
def argListLoopF : Nat → PState → Except ParseError (List Expr × PState)
  | 0, _ => .error .outOfFuel
  | fuel + 1, s =>
    if s.lookAhead.type = .COMMA then do
      let (_, s) ← eatE .COMMA s
      let (next, s) ← assignmentExpressionF fuel s
      let (rest, s) ← argListLoopF fuel s
      .ok (next :: rest, s)
    else .ok ([], s)

/-- primary of parser.go: a literal, a parenthesised expression, an
identifier, this, or new; anything else is the unexpected-primary
panic. -/
def primaryF : Nat → PState → Except ParseError (Expr × PState)
  | 0, _ => .error .outOfFuel
  | fuel + 1, s =>
    if isLiteralType s.lookAhead.type then literalE s
    else
      match s.lookAhead.type with
      | .LPAREN => do
        let (_, s) ← eatE .LPAREN s
        let (e, s) ← expressionF fuel s
        let (_, s) ← eatE .RPAREN s
        .ok (e, s)
      | .IDENTIFIER => identifierE s
      | .THIS => do
        let (_, s) ← eatE .THIS s
        .ok (.thisExpression, s)
      | .NEW => do
        let (_, s) ← eatE .NEW s
        let (callee, s) ← memberExpF fuel s
        let (args, s) ← argumentsF fuel s
        .ok (.newExpression callee args, s)
      | _ => .error .unexpectedPrimary

end

/-- The initial parser state set up by Parse: the first token pulled
into the lookahead slot. -/
def initState (src : List Char) : PState :=
  match getNextToken src with
  | (tok, rest) => ⟨tok, rest⟩

/-- A fuel budget that the bounded-depth descent of the parser can never
exhaust on the given source. -/
def parserFuel (src : List Char) : Nat :=
  64 * (src.length + 4)

/-- Parse with an explicit fuel budget. -/
def parseF (fuel : Nat) (src : List Char) : Except ParseError Program :=
  programF fuel (initState src)

/-- Parse of parser.go: build the Program for a source string, or return
the parser's fatal failure. -/
def parse (s : String) : Except ParseError Program :=
  parseF (parserFuel s.data) s.data

/-! Helper lemmas about the tokenizer on symbolic input. -/

theorem matchSpaces_cons {c : Char} (h : isSpaceChar c = false) (xs : List Char) :
    matchSpaces (c :: xs) = none := by
  simp [matchSpaces, List.takeWhile_cons, h]

theorem matchLineComment_cons {c : Char} (h : ¬ ('/' : Char) = c) (xs : List Char) :
    matchLineComment (c :: xs) = none := by
  simp [matchLineComment, leadsWith, h]

theorem matchBlockComment_cons {c : Char} (h : ¬ ('/' : Char) = c) (xs : List Char) :
    matchBlockComment (c :: xs) = none := by
  simp [matchBlockComment, leadsWith, h]

theorem matchLit_cons {l c : Char} {lit : List Char} (h : ¬ l = c) (xs : List Char) :
    matchLit (l :: lit) (c :: xs) = none := by
  simp [matchLit, leadsWith, h]

theorem matchRelational_cons {c : Char} (h1 : ¬ c = '<') (h2 : ¬ c = '>') (xs : List Char) :
    matchRelational (c :: xs) = none := by
  simp [matchRelational, h1, h2]

theorem matchEquality_cons {c : Char} (h1 : ¬ c = '!') (h2 : ¬ c = '=') (xs : List Char) :
    matchEquality (c :: xs) = none := by
  simp [matchEquality, h1, h2]

theorem matchComplexAssign_cons {c : Char} (h1 : ¬ c = '+') (h2 : ¬ c = '-')
    (h3 : ¬ c = '*') (h4 : ¬ c = '/') (xs : List Char) :
    matchComplexAssign (c :: xs) = none := by
  simp [matchComplexAssign, h1, h2, h3, h4]

theorem matchOneOf_cons {c : Char} {o : List Char} (h : c ∉ o) (xs : List Char) :
    matchOneOf o (c :: xs) = none := by
  simp [matchOneOf, h]

theorem matchKeyword_cons {k c : Char} {kw : List Char} (h : ¬ k = c) (xs : List Char) :
    matchKeyword (k :: kw) (c :: xs) = none := by
  simp [matchKeyword, leadsWith, h]

theorem matchDigits_cons {c : Char} (h : isDigitChar c = false) (xs : List Char) :
    matchDigits (c :: xs) = none := by
  simp [matchDigits, List.takeWhile_cons, h]

theorem matchQuoted_cons {q c : Char} (h : ¬ c = q) (xs : List Char) :
    matchQuoted q (c :: xs) = none := by
  simp [matchQuoted, h]

theorem matchWordRun_cons {c : Char} (h : isWordChar c = false) (xs : List Char) :
    matchWordRun (c :: xs) = none := by
  simp [matchWordRun, List.takeWhile_cons, h]

/-- On input headed by a double quote the rule scan reaches the
double-quoted string rule, every earlier rule failing. -/
theorem findRule_dquote (xs : List Char) (n : Nat)
    (h : matchQuoted '"' ('"' :: xs) = some (n + 1)) :
    findRule spec ('"' :: xs) = some (.STRING, n + 1) := by
  simp only [spec, findRule,
    matchSpaces_cons (c := '"') (by decide) xs,
    matchLineComment_cons (c := '"') (by decide) xs,
    matchBlockComment_cons (c := '"') (by decide) xs,
    matchLit_cons (l := '{') (c := '"') (by decide) xs,
    matchLit_cons (l := '}') (c := '"') (by decide) xs,
    matchLit_cons (l := '(') (c := '"') (by decide) xs,
    matchLit_cons (l := ')') (c := '"') (by decide) xs,
    matchLit_cons (l := '[') (c := '"') (by decide) xs,
    matchLit_cons (l := ']') (c := '"') (by decide) xs,
    matchLit_cons (l := ',') (c := '"') (by decide) xs,
    matchLit_cons (l := ';') (c := '"') (by decide) xs,
    matchLit_cons (l := '.') (c := '"') (by decide) xs,
    matchRelational_cons (c := '"') (by decide) (by decide) xs,
    matchEquality_cons (c := '"') (by decide) (by decide) xs,
    matchLit_cons (l := '&') (c := '"') (by decide) xs,
    matchLit_cons (l := '|') (c := '"') (by decide) xs,
    matchLit_cons (l := '!') (c := '"') (by decide) xs,
    matchLit_cons (l := '=') (c := '"') (by decide) xs,
    matchComplexAssign_cons (c := '"') (by decide) (by decide) (by decide) (by decide) xs,
    matchOneOf_cons (c := '"') (o := ['+', '-']) (by decide) xs,
    matchOneOf_cons (c := '"') (o := ['*', '/']) (by decide) xs,
    matchKeyword_cons (k := 'l') (c := '"') (by decide) xs,
    matchKeyword_cons (k := 'i') (c := '"') (by decide) xs,
    matchKeyword_cons (k := 'e') (c := '"') (by decide) xs,
    matchKeyword_cons (k := 't') (c := '"') (by decide) xs,
    matchKeyword_cons (k := 'f') (c := '"') (by decide) xs,
    matchKeyword_cons (k := 'n') (c := '"') (by decide) xs,
    matchKeyword_cons (k := 'd') (c := '"') (by decide) xs,
    matchKeyword_cons (k := 'r') (c := '"') (by decide) xs,
    matchKeyword_cons (k := 'c') (c := '"') (by decide) xs,
    matchKeyword_cons (k := 's') (c := '"') (by decide) xs,
    matchKeyword_cons (k := 'w') (c := '"') (by decide) xs,
    matchDigits_cons (c := '"') (by decide) xs,
    h]

/-- On input headed by a single quote the rule scan reaches the
single-quoted string rule, every earlier rule failing. -/
theorem findRule_squote (xs : List Char) (n : Nat)
    (h : matchQuoted squote (squote :: xs) = some (n + 1)) :
    findRule spec (squote :: xs) = some (.STRING, n + 1) := by
  simp only [spec, findRule,
    matchSpaces_cons (c := squote) (by decide) xs,
    matchLineComment_cons (c := squote) (by decide) xs,
    matchBlockComment_cons (c := squote) (by decide) xs,
    matchLit_cons (l := '{') (c := squote) (by decide) xs,
    matchLit_cons (l := '}') (c := squote) (by decide) xs,
    matchLit_cons (l := '(') (c := squote) (by decide) xs,
    matchLit_cons (l := ')') (c := squote) (by decide) xs,
    matchLit_cons (l := '[') (c := squote) (by decide) xs,
    matchLit_cons (l := ']') (c := squote) (by decide) xs,
    matchLit_cons (l := ',') (c := squote) (by decide) xs,
    matchLit_cons (l := ';') (c := squote) (by decide) xs,
    matchLit_cons (l := '.') (c := squote) (by decide) xs,
    matchRelational_cons (c := squote) (by decide) (by decide) xs,
    matchEquality_cons (c := squote) (by decide) (by decide) xs,
    matchLit_cons (l := '&') (c := squote) (by decide) xs,
    matchLit_cons (l := '|') (c := squote) (by decide) xs,
    matchLit_cons (l := '!') (c := squote) (by decide) xs,
    matchLit_cons (l := '=') (c := squote) (by decide) xs,
    matchComplexAssign_cons (c := squote) (by decide) (by decide) (by decide) (by decide) xs,
    matchOneOf_cons (c := squote) (o := ['+', '-']) (by decide) xs,
    matchOneOf_cons (c := squote) (o := ['*', '/']) (by decide) xs,
    matchKeyword_cons (k := 'l') (c := squote) (by decide) xs,
    matchKeyword_cons (k := 'i') (c := squote) (by decide) xs,
    matchKeyword_cons (k := 'e') (c := squote) (by decide) xs,
    matchKeyword_cons (k := 't') (c := squote) (by decide) xs,
    matchKeyword_cons (k := 'f') (c := squote) (by decide) xs,
    matchKeyword_cons (k := 'n') (c := squote) (by decide) xs,
    matchKeyword_cons (k := 'd') (c := squote) (by decide) xs,
    matchKeyword_cons (k := 'r') (c := squote) (by decide) xs,
    matchKeyword_cons (k := 'c') (c := squote) (by decide) xs,
    matchKeyword_cons (k := 's') (c := squote) (by decide) xs,
    matchKeyword_cons (k := 'w') (c := squote) (by decide) xs,
    matchDigits_cons (c := squote) (by decide) xs,
    matchQuoted_cons (q := '"') (c := squote) (by decide) xs,
    h]

/-- The non-quote run of a quoted literal's body stops exactly at the
closing quote. -/
theorem takeWhile_no_quote {q : Char} (s : List Char) (h : q ∉ s) :
    (s ++ [q]).takeWhile (notChar q) = s := by
  induction s with
  | nil => simp [List.takeWhile_cons, notChar]
  | cons a t ih =>
    have ha : ¬ a = q := fun hc => h (hc ▸ List.mem_cons_self a t)
    have ht : q ∉ t := fun hc => h (List.mem_cons_of_mem a hc)
    have hp : notChar q a = true := by simp [notChar, ha]
    simp only [List.cons_append, List.takeWhile_cons, hp, if_true]
    rw [ih ht]

/-- A well-delimited quoted literal matches its quoting rule whole. -/
theorem matchQuoted_closed {q : Char} (s : List Char) (h : q ∉ s) :
    matchQuoted q (q :: (s ++ [q])) = some (s.length + 2) := by
  simp only [matchQuoted, takeWhile_no_quote s h, List.drop_left, if_pos rfl]
  simp

/-- When the winning rule is significant and spans the entire remainder,
GetNextToken returns that whole remainder as the token text and leaves
nothing unconsumed. -/
theorem getNextToken_whole (c : Char) (cs : List Char) (ty : TokenType)
    (hty : ¬ ty = TokenType.IGNORE)
    (hf : findRule spec (c :: cs) = some (ty, (c :: cs).length)) :
    getNextToken (c :: cs) = (⟨ty, String.mk (c :: cs)⟩, []) := by
  simp only [getNextToken, List.length_cons, getNextTokenF, List.isEmpty_cons, hf]
  simp [hty, List.take_length, List.drop_length]

/-- GetNextToken on a whole double-quoted literal yields a STRING token
carrying the full lexeme, quotes included. -/
theorem getNextToken_dquote (s : List Char) (h : ('"' : Char) ∉ s) :
    getNextToken ('"' :: (s ++ ['"'])) =
      (⟨.STRING, String.mk ('"' :: (s ++ ['"']))⟩, []) := by
  apply getNextToken_whole
  · decide
  · have hq := matchQuoted_closed s h
    have hf := findRule_dquote (s ++ ['"']) (s.length + 1) (by simpa using hq)
    simpa using hf

/-- GetNextToken on a whole single-quoted literal yields a STRING token
carrying the full lexeme, quotes included. -/
theorem getNextToken_squote (s : List Char) (h : squote ∉ s) :
    getNextToken (squote :: (s ++ [squote])) =
      (⟨.STRING, String.mk (squote :: (s ++ [squote]))⟩, []) := by
  apply getNextToken_whole
  · decide
  · have hq := matchQuoted_closed s h
    have hf := findRule_squote (s ++ [squote]) (s.length + 1) (by simpa using hq)
    simpa using hf

/-- The parser descent on a program whose token stream is a single STRING
token: every level falls through to the literal production and the
statement loop stops at end of input. -/
theorem programF_single_string (v : String) (f : Nat) :
    programF (f + 16) ⟨⟨.STRING, v⟩, []⟩ =
      .ok ⟨[.expressionStatement (.stringLiteral v)]⟩ := rfl

/-- After the STRING token of a whole quoted-literal source, the token
stream is exactly that token then end of input. -/
theorem tokenizeF_single_string (v : String) (f : Nat) (src : List Char)
    (h : getNextToken src = (⟨.STRING, v⟩, [])) :
    tokenizeF (f + 2) src = [⟨.STRING, v⟩, ⟨.EOF, ""⟩] := by
  have h2 : tokenizeF (f + 1) ([] : List Char) = [⟨.EOF, ""⟩] := rfl
  rw [show f + 2 = (f + 1) + 1 from rfl, tokenizeF, h]
  simp [h2]

/-- Parsing a source that is one whole double-quoted literal yields a
StringLiteral carrying the full lexeme, quotes included. -/
theorem parse_single_dquote (s : List Char) (h : ('"' : Char) ∉ s) :
    parse (String.mk ('"' :: (s ++ ['"']))) =
      .ok ⟨[.expressionStatement (.stringLiteral (String.mk ('"' :: (s ++ ['"']))))]⟩ := by
  have hg := getNextToken_dquote s h
  have hfuel : parserFuel ('"' :: (s ++ ['"'])) = 64 * s.length + 368 + 16 := by
    simp [parserFuel]
    omega
  simp only [parse, parseF, initState, hg, hfuel]
  exact programF_single_string _ _

/-- Parsing a source that is one whole single-quoted literal yields a
StringLiteral carrying the full lexeme, quotes included. -/
theorem parse_single_squote (s : List Char) (h : squote ∉ s) :
    parse (String.mk (squote :: (s ++ [squote]))) =
      .ok ⟨[.expressionStatement (.stringLiteral (String.mk (squote :: (s ++ [squote]))))]⟩ := by
  have hg := getNextToken_squote s h
  have hfuel : parserFuel (squote :: (s ++ [squote])) = 64 * s.length + 368 + 16 := by
    simp [parserFuel]
    omega
  simp only [parse, parseF, initState, hg, hfuel]
  exact programF_single_string _ _

/-- Tokenizing a source that is one whole double-quoted literal yields
the STRING token with the full lexeme then end of input. -/
theorem tokenize_single_dquote (s : List Char) (h : ('"' : Char) ∉ s) :
    tokenize (String.mk ('"' :: (s ++ ['"']))) =
      [⟨.STRING, String.mk ('"' :: (s ++ ['"']))⟩, ⟨.EOF, ""⟩] := by
  have hg := getNextToken_dquote s h
  have hlen : (String.mk ('"' :: (s ++ ['"']))).length = s.length + 2 := by
    simp [String.length]
  simp only [tokenize, hlen]
  exact tokenizeF_single_string _ (s.length + 1) _ hg

/-- Tokenizing a source that is one whole single-quoted literal yields
the STRING token with the full lexeme then end of input. -/
theorem tokenize_single_squote (s : List Char) (h : squote ∉ s) :
    tokenize (String.mk (squote :: (s ++ [squote]))) =
      [⟨.STRING, String.mk (squote :: (s ++ [squote]))⟩, ⟨.EOF, ""⟩] := by
  have hg := getNextToken_squote s h
  have hlen : (String.mk (squote :: (s ++ [squote]))).length = s.length + 2 := by
    simp [String.length]
  simp only [tokenize, hlen]
  exact tokenizeF_single_string _ (s.length + 1) _ hg

/-- No fuel level lets GetNextToken surface an insignificant token: the
insignificant branch always recurses instead of returning. -/
theorem getNextTokenF_not_ignore (fuel : Nat) :
    ∀ input : List Char, (getNextTokenF fuel input).1.type ≠ .IGNORE := by
  induction fuel with
  | zero => intro input; simp [getNextTokenF]
  | succ n ih =>
    intro input
    simp only [getNextTokenF]
    split
    · simp
    · split
      · rename_i ty k heq
        split
        · exact ih _
        · rename_i hty
          simpa using hty
      · simp

/-! Theorems settling the specified claims. -/

/-- C1 counterexample: parsing the five-character source consisting of
the double-quoted literal foo yields a StringLiteral whose stored value
still carries the quote delimiters, and the STRING token likewise
carries them, contradicting the claim that the quotes are stripped. -/
theorem claim_C1_counterexample :
    parse "\"foo\"" = .ok ⟨[.expressionStatement (.stringLiteral "\"foo\"")]⟩ ∧
    tokenize "\"foo\"" = [⟨.STRING, "\"foo\""⟩, ⟨.EOF, ""⟩] ∧
    ("\"foo\"" : String) ≠ "foo" := by
  refine ⟨by rfl, by decide, by decide⟩

/-- C1 (amended): for every source consisting of a single string literal
(double- or single-quoted), the resulting StringLiteral node stores the
entire lexeme with the quote delimiters INCLUDED, and the STRING token
carrying it includes the delimiters as well. -/
theorem claim_C1 (s : List Char) :
    (('"' : Char) ∉ s →
      tokenize (String.mk ('"' :: (s ++ ['"']))) =
        [⟨.STRING, String.mk ('"' :: (s ++ ['"']))⟩, ⟨.EOF, ""⟩] ∧
      parse (String.mk ('"' :: (s ++ ['"']))) =
        .ok ⟨[.expressionStatement (.stringLiteral (String.mk ('"' :: (s ++ ['"']))))]⟩) ∧
    (squote ∉ s →
      tokenize (String.mk (squote :: (s ++ [squote]))) =
        [⟨.STRING, String.mk (squote :: (s ++ [squote]))⟩, ⟨.EOF, ""⟩] ∧
      parse (String.mk (squote :: (s ++ [squote]))) =
        .ok ⟨[.expressionStatement (.stringLiteral (String.mk (squote :: (s ++ [squote]))))]⟩) := by
  constructor
  · intro h
    exact ⟨tokenize_single_dquote s h, parse_single_dquote s h⟩
  · intro h
    exact ⟨tokenize_single_squote s h, parse_single_squote s h⟩

/-- C1 witness: the amended theorem applied to the contents foo for both
quoting styles. -/
theorem claim_C1_witness :
    (tokenize (String.mk ('"' :: (['f', 'o', 'o'] ++ ['"']))) =
        [⟨.STRING, String.mk ('"' :: (['f', 'o', 'o'] ++ ['"']))⟩, ⟨.EOF, ""⟩] ∧
      parse (String.mk ('"' :: (['f', 'o', 'o'] ++ ['"']))) =
        .ok ⟨[.expressionStatement
          (.stringLiteral (String.mk ('"' :: (['f', 'o', 'o'] ++ ['"']))))]⟩) ∧
    (tokenize (String.mk (squote :: (['f', 'o', 'o'] ++ [squote]))) =
        [⟨.STRING, String.mk (squote :: (['f', 'o', 'o'] ++ [squote]))⟩, ⟨.EOF, ""⟩] ∧
      parse (String.mk (squote :: (['f', 'o', 'o'] ++ [squote]))) =
        .ok ⟨[.expressionStatement
          (.stringLiteral (String.mk (squote :: (['f', 'o', 'o'] ++ [squote]))))]⟩) :=
  ⟨(claim_C1 ['f', 'o', 'o']).1 (by decide),
   (claim_C1 ['f', 'o', 'o']).2 (by decide)⟩

/-- C2 counterexample: parsing the incomplete call source with only an
identifier and an opening parenthesis fails with the unexpected-primary
panic, whose message is the fixed primary-expression text and does not
name the RPAREN category. -/
theorem claim_C2_counterexample :
    parse "f(" = .error .unexpectedPrimary ∧
    ParseError.message .unexpectedPrimary = "Unexpected primary expression." ∧
    ParseError.namesExpected .unexpectedPrimary .RPAREN = false := by
  refine ⟨by rfl, by rfl, by rfl⟩

/-- C2 (amended): parsing the incomplete call source consisting of an
identifier and an opening parenthesis does fail syntactically rather
than silently succeed, but with the unexpected-primary panic, which does
not name the RPAREN category; the failure that names the missing RPAREN
arises when the argument position is filled, as in parsing the source
consisting of an identifier, an opening parenthesis and a number. -/
theorem claim_C2 :
    parse "f(" = .error .unexpectedPrimary ∧
    ParseError.namesExpected .unexpectedPrimary .RPAREN = false ∧
    parse "f(1" = .error (.unexpectedEndOfInput .RPAREN) ∧
    ParseError.namesExpected (.unexpectedEndOfInput .RPAREN) .RPAREN = true ∧
    ParseError.message (.unexpectedEndOfInput .RPAREN) =
      "Unexpected end of input, expected: RPAREN" := by
  refine ⟨by rfl, by rfl, by rfl, by rfl, by rfl⟩

/-- C3: parsing the source 1+2*3 succeeds with the multiplicative
subtree nested inside the additive node, and the Program's ToString
rendering is exactly (1+(2*3)). -/
theorem claim_C3 :
    parse "1+2*3" =
      .ok ⟨[.expressionStatement (.binary "+" (.numericLiteral 1)
        (.binary "*" (.numericLiteral 2) (.numericLiteral 3)))]⟩ ∧
    Program.toText ⟨[.expressionStatement (.binary "+" (.numericLiteral 1)
        (.binary "*" (.numericLiteral 2) (.numericLiteral 3)))]⟩ = "(1+(2*3))" := by
  constructor
  · rfl
  · simp [Program.toText, Stmt.toText, Expr.toText, intToText, natDecimal, natDecimalAux]

/-- C4: assignment parsing is right-associative, so a=b=c nests to the
right, and prefix unary parsing is right-recursive, so --a nests two
unary minus nodes. -/
theorem claim_C4 :
    parse "a=b=c" =
      .ok ⟨[.expressionStatement (.assignment "=" (.identifier "a")
        (.assignment "=" (.identifier "b") (.identifier "c")))]⟩ ∧
    parse "--a" =
      .ok ⟨[.expressionStatement (.unaryExpression "-"
        (.unaryExpression "-" (.identifier "a")))]⟩ := by
  refine ⟨by rfl, by rfl⟩

/-- C5: keyword matching is word-boundary anchored: the source with let
then the identifier letter yields the LET keyword token followed by an
IDENTIFIER token, and lettuce tokenizes as one IDENTIFIER token, never
as the keyword let plus a remainder. -/
theorem claim_C5 :
    tokenize "let letter = 5" =
      [⟨.LET, "let"⟩, ⟨.IDENTIFIER, "letter"⟩, ⟨.SIMPLE_ASSIGN, "="⟩,
       ⟨.NUMBER, "5"⟩, ⟨.EOF, ""⟩] ∧
    tokenize "lettuce" = [⟨.IDENTIFIER, "lettuce"⟩, ⟨.EOF, ""⟩] := by
  refine ⟨by decide, by decide⟩

/-- C6: no GetNextToken call on any input ever returns a token of the
insignificant IGNORE category, and the comment-and-whitespace example
tokenizes to exactly the number, plus, number and end-of-input tokens. -/
theorem claim_C6 :
    (∀ input : List Char, (getNextToken input).1.type ≠ .IGNORE) ∧
    tokenize "1 /* c */ + // c\n 2" =
      [⟨.NUMBER, "1"⟩, ⟨.ADDITIVE_OPERATOR, "+"⟩, ⟨.NUMBER, "2"⟩, ⟨.EOF, ""⟩] := by
  constructor
  · intro input
    exact getNextTokenF_not_ignore _ input
  · decide

/-- C7: the code fails the claimed round trip at the failing input where
a parenthesised call is member-accessed: the source parses to a member
node over a call node, its rendering drops the grouping parentheses, and
re-parsing that rendering aborts with the unexpected-primary panic
instead of reproducing the tree. -/
theorem claim_C7 :
    parse "(f()).a" =
      .ok ⟨[.expressionStatement
        (.member false (.call (.identifier "f") []) (.identifier "a"))]⟩ ∧
    Program.toText ⟨[.expressionStatement
        (.member false (.call (.identifier "f") []) (.identifier "a"))]⟩ = "f().a" ∧
    parse "f().a" = .error .unexpectedPrimary := by
  refine ⟨by rfl, ?_, by rfl⟩
  simp [Program.toText, Stmt.toText, Expr.toText, argsToText]

/-- C8: the grammar accepts any expression as the left side of an
assignment: parsing the source with a numeric literal left of the equals
sign succeeds and produces the assignment node over the literal. -/
theorem claim_C8 :
    parse "5 = x" =
      .ok ⟨[.expressionStatement (.assignment "=" (.numericLiteral 5)
        (.identifier "x"))]⟩ := by
  rfl

/-- C9: numeric tokens convert with base-zero integer parsing: the
leading-zero source 010 parses to the octal value eight, while 09 makes
the parse fail on the conversion even though its digit run tokenizes as
a NUMBER token. -/
theorem claim_C9 :
    parse "010" = .ok ⟨[.expressionStatement (.numericLiteral 8)]⟩ ∧
    parse "09" = .error .numericConversion ∧
    tokenize "09" = [⟨.NUMBER, "09"⟩, ⟨.EOF, ""⟩] := by
  refine ⟨by rfl, by rfl, by decide⟩

/-- C10: a semicolon anywhere in the input is fatal: the source a;b is
tokenized with a SEMICOLON token, and parsing aborts with the
unexpected-primary panic when the statement loop reaches the
semicolon. -/
theorem claim_C10 :
    parse "a;b" = .error .unexpectedPrimary ∧
    tokenize "a;b" =
      [⟨.IDENTIFIER, "a"⟩, ⟨.SEMICOLON, ";"⟩, ⟨.IDENTIFIER, "b"⟩, ⟨.EOF, ""⟩] := by
  refine ⟨by rfl, by decide⟩

end Letter

